import Mathlib

/-!
Verification development for the telegram-daily-digest message pipeline.

The repository's scoring-and-dispatch pipeline is embedded shallowly:
pure TypeScript functions become Lean functions, stateful code becomes
explicit state passing, JavaScript numbers become `Nat`/`Int`/`ℚ`
(with `Math.round` modelled as floor (x + 1/2), half-up as in JS), and
JavaScript string operations are modelled over `List Char` code points
with `.length` modelled as UTF-16 length (`jsLen`).  Lowercasing covers
the Latin and Cyrillic ranges used by the repository's keyword lists.
External calls (OpenAI, Telegram, Postgres) are modelled as explicit
oracle parameters / environment records; the fixed regular expressions
of the source are compiled by hand into decidable predicates, including
the `lastIndex` statefulness of `g`-flagged regexes used with `test`.
Where the source composes against an interface its collaborator does not
actually provide — `NotificationService` calls
`UserService.getAllUsers()`, which does not exist, and
`NotificationSender` reads `.success`/`.data` on the bare `User | null`
that `UserService.getUserById` really returns — the embedding models the
concrete composition, including the resulting `TypeError`s and dead
branches.
-/

/-!
Rational arithmetic appears throughout the embedded scoring code; the
Batteries `Rat.add`/`Rat.mul`/`Rat.sub` are sealed `irreducible`, which
blocks `decide` on concrete runs, so their default reducibility is
restored here.  Rational constants are written with `mkRat` for the same
reason.
-/

attribute [local semireducible] Rat.add Rat.mul Rat.sub

/-! ## JavaScript string primitives -/

/-- UTF-16 length of one code point: astral-plane characters count 2. -/
def jsCharLen (c : Char) : Nat :=
  if c.toNat < 65536 then 1 else 2

/-- JS `String.prototype.length`: number of UTF-16 code units. -/
def jsLen (s : List Char) : Nat :=
  s.foldl (fun a c => a + jsCharLen c) 0

/-- The JS `\s` whitespace class (also used by `String.prototype.trim`). -/
def isJsWs (c : Char) : Bool :=
  c.toNat = 9 || c.toNat = 10 || c.toNat = 11 || c.toNat = 12 || c.toNat = 13 ||
  c.toNat = 32 || c.toNat = 160 || c.toNat = 0x1680 ||
  (0x2000 ≤ c.toNat && c.toNat ≤ 0x200A) ||
  c.toNat = 0x2028 || c.toNat = 0x2029 || c.toNat = 0x202F ||
  c.toNat = 0x205F || c.toNat = 0x3000 || c.toNat = 0xFEFF

/-- JS `String.prototype.trim`. -/
def jsTrim (s : List Char) : List Char :=
  ((s.dropWhile isJsWs).reverse.dropWhile isJsWs).reverse

/-- Lowercasing as used on the repository's data: ASCII `A`–`Z`,
Cyrillic `А`–`Я` and `Ё` (the alphabets of all keyword lists). -/
def lowerChar (c : Char) : Char :=
  if 65 ≤ c.toNat && c.toNat ≤ 90 then Char.ofNat (c.toNat + 32)
  else if 0x410 ≤ c.toNat && c.toNat ≤ 0x42F then Char.ofNat (c.toNat + 0x20)
  else if c.toNat = 0x401 then Char.ofNat 0x451
  else c

def lowerL (s : List Char) : List Char := s.map lowerChar

/-- Does `p` occur as a prefix of `s`? -/
def tokAt : List Char → List Char → Bool
  | [], _ => true
  | _ :: _, [] => false
  | p :: ps, c :: cs => p = c && tokAt ps cs

/-- JS `String.prototype.includes` (substring containment). -/
def hasTok (tok : List Char) : List Char → Bool
  | [] => tokAt tok []
  | c :: cs => tokAt tok (c :: cs) || hasTok tok cs

/-- Case-insensitive alternation-of-literals regex `/(?:a|b|...)/i`. -/
def anyTokCI (toks : List String) (s : List Char) : Bool :=
  toks.any (fun t => hasTok (lowerL t.data) (lowerL s))

/-- JS line terminators, which `.` (without the `s` flag) cannot match. -/
def isLineTerm (c : Char) : Bool :=
  c.toNat = 10 || c.toNat = 13 || c.toNat = 0x2028 || c.toNat = 0x2029

/-- Scan for a character satisfying `p` before the next line terminator:
the `.*(?:X)` tail of a regex where `X` is a single-character class. -/
def classBeforeNl (p : Char → Bool) : List Char → Bool
  | [] => false
  | c :: cs => if p c then true else if isLineTerm c then false else classBeforeNl p cs

/-- Scan for one of `toks` occurring before the next line terminator:
the `.*(?:a|b|...)` tail of a regex. -/
def tokBeforeNl (toks : List (List Char)) : List Char → Bool
  | [] => toks.any (·.isEmpty)
  | s@(c :: cs) =>
    (toks.any fun t => tokAt t s) ||
    (if isLineTerm c then false else tokBeforeNl toks cs)

/-- Regex `/(?:t1|t2|...)<tail>/`: some token occurrence followed by a
position where `after` succeeds on the rest of the input. -/
def tokThenScan (toks : List (List Char)) (after : List Char → Bool) : List Char → Bool
  | [] => toks.any (fun t => t.isEmpty && after [])
  | s@(_ :: cs) =>
    (toks.any fun t => tokAt t s && after (s.drop t.length)) ||
    tokThenScan toks after cs

/-- Number of matches of a greedy class-run regex `/[C]{k,}/g`:
one match per maximal run of class characters of length ≥ `k`. -/
def classRunsGo (p : Char → Bool) (k : Nat) : List Char → Nat → Nat
  | [], cur => if k ≤ cur then 1 else 0
  | c :: cs, cur =>
    if p c then classRunsGo p k cs (cur + 1)
    else (if k ≤ cur then 1 else 0) + classRunsGo p k cs 0

def classRuns (p : Char → Bool) (k : Nat) (s : List Char) : Nat :=
  classRunsGo p k s 0

/-- Number of matches of `/(.)\1{4,}/g`: one per maximal run of ≥ 5
identical characters (`.` cannot match a line terminator). -/
def sameRunsGo : List Char → Option Char → Nat → Nat
  | [], prev, cur =>
    match prev with
    | some _ => if 5 ≤ cur then 1 else 0
    | none => 0
  | c :: cs, prev, cur =>
    if prev = some c then sameRunsGo cs prev (cur + 1)
    else
      (match prev with
       | some _ => if 5 ≤ cur then 1 else 0
       | none => 0) +
      (if isLineTerm c then sameRunsGo cs none 0 else sameRunsGo cs (some c) 1)

def sameRuns (s : List Char) : Nat := sameRunsGo s none 0

/-- JS `Math.round`: half-up rounding, `⌊x + 1/2⌋`. -/
def jsRound (q : ℚ) : ℤ := ⌊q + mkRat 1 2⌋

/-- JS `str.split(/\s+/)` (keeps empty boundary fields, as JS does):
`sep = true` while consuming a separator run of whitespace, `sep = false`
while accumulating the current token into `acc`. -/
def splitWsGo (sep : Bool) (acc : List Char) : List Char → List (List Char)
  | [] => if sep then [[]] else [acc.reverse]
  | c :: cs =>
    if sep then
      if isJsWs c then splitWsGo true [] cs else splitWsGo false [c] cs
    else
      if isJsWs c then acc.reverse :: splitWsGo true [] cs
      else splitWsGo false (c :: acc) cs

def splitWs (s : List Char) : List (List Char) := splitWsGo false [] s

/-! ## ContentFilterService (src/unnamed/part_009)

`FilterResult` as in the source: `isFiltered = true` means blocked.
The two anchored low-quality patterns carry the `g` flag in the source
and are exercised with `RegExp.test`, so their `lastIndex` persists on
the service instance between calls; `LQState` models those two
`lastIndex` fields, and `gAnchoredTest` models `test` for a
`^...$`-anchored global regex (a match can only start at index 0; on
failure `lastIndex` resets to 0). -/

structure FilterResult where
  isFiltered : Bool
  reasons : List String
  confidence : ℚ
deriving DecidableEq

structure RuleCheck where
  detected : Bool
  reasons : List String
  confidence : ℚ
deriving DecidableEq

/-- `lastIndex` of `/^[.]{3,}$/g` and `/^[-_=+]{3,}$/g`. -/
structure LQState where
  liDots : Nat
  liSeps : Nat
deriving DecidableEq

/-- `RegExp.test` for an anchored `/^...$/g` pattern: `full` says whether
the whole string matches, `len` is the UTF-16 end index on success. -/
def gAnchoredTest (full : Bool) (len : Nat) (li : Nat) : Bool × Nat :=
  if li = 0 then (if full then (true, len) else (false, 0)) else (false, 0)

/-- The repository's 11 advertising regexes, each paired with the reason
name `getPatternName` derives for it. -/
def adChecks : List ((List Char → Bool) × String) :=
  [ (anyTokCI ["купи", "покупай", "продаю", "продается", "заказ", "скидка", "акция", "распродажа"],
     "торговые призывы"),
    (fun s => tokThenScan
        (["цена", "стоимость", "рубл", "доллар", "евро", "₽", "$", "€"].map (fun t => lowerL t.data))
        (classBeforeNl Char.isDigit) (lowerL s),
     "финансовые термины"),
    (anyTokCI ["заказать", "оформить", "доставка", "курьер"], "подозрительный контент"),
    (anyTokCI ["заработок", "доход", "инвестиц", "крипто", "биткоин", "форекс", "бинанс"],
     "финансовые схемы"),
    (anyTokCI ["пассивный доход", "легкие деньги", "без вложений", "гарантированный доход"],
     "подозрительный контент"),
    (anyTokCI ["ставки", "казино", "рулетка", "слоты", "бет", "1xbet", "fonbet"],
     "азартные игры"),
    (anyTokCI ["выиграл", "проиграл", "коэффициент", "букмекер"], "подозрительный контент"),
    (anyTokCI ["переходи", "жми", "кликай", "подписыв", "регистрир"], "призывы к действию"),
    (fun s => tokThenScan
        (["телеграм", "telegram"].map (fun t => lowerL t.data))
        (tokBeforeNl (["канал", "группа", "бот"].map (fun t => lowerL t.data))) (lowerL s),
     "подозрительный контент"),
    (anyTokCI ["похудение", "диета", "таблетки", "препарат", "лекарство"], "медицинские товары"),
    (anyTokCI ["потенция", "эрекция", "увеличение"], "подозрительный контент") ]

/-- `ContentFilterService.checkForAds`: one `test` per pattern, each
match contributing 0.3 confidence, capped at 1. -/
def checkForAds (content : List Char) : RuleCheck :=
  let hits := adChecks.filter (fun pc => pc.1 content)
  let matchCount := hits.length
  { detected := 0 < matchCount,
    reasons := hits.map (fun pc => "Реклама: " ++ pc.2),
    confidence := min ((matchCount : ℚ) * mkRat 3 10) 1 }

/-- The `[A-ZА-Я]` character class (no `Ё`). -/
def isUpperLatCyr (c : Char) : Bool :=
  (65 ≤ c.toNat && c.toNat ≤ 90) || (0x410 ≤ c.toNat && c.toNat ≤ 0x42F)

/-- The emoji class of the spam pattern
`(?:[\u{1F600}-\u{1F64F}]|[\u{1F300}-\u{1F5FF}]|[\u{1F680}-\u{1F6FF}]|[\u{1F1E0}-\u{1F1FF}])`. -/
def isSpamEmoji (c : Char) : Bool :=
  (0x1F600 ≤ c.toNat && c.toNat ≤ 0x1F64F) ||
  (0x1F300 ≤ c.toNat && c.toNat ≤ 0x1F5FF) ||
  (0x1F680 ≤ c.toNat && c.toNat ≤ 0x1F6FF) ||
  (0x1F1E0 ≤ c.toNat && c.toNat ≤ 0x1F1FF)

/-- Per-word occurrence counting preserving first-occurrence order
(JS `Map` iteration order). -/
def bumpWord (w : List Char) : List (List Char × Nat) → List (List Char × Nat)
  | [] => [(w, 1)]
  | (x, n) :: rest => if x = w then (x, n + 1) :: rest else (x, n) :: bumpWord w rest

def countWords (ws : List (List Char)) : List (List Char × Nat) :=
  ws.foldl (fun acc w => bumpWord w acc) []

/-- `ContentFilterService.checkForSpam`: the seven spam patterns counted
via `String.match`, the uppercase-ratio rule and the word-repetition
rule, accumulated into `spamScore` and capped at 1. -/
def checkForSpam (content : List Char) : RuleCheck :=
  let patternCounts : List Nat :=
    [ sameRuns content,
      classRuns (fun c => c = '!') 3 content,
      classRuns (fun c => c = '?') 3 content,
      classRuns isUpperLatCyr 10 content,
      (if anyTokCI ["срочно", "немедленно", "быстрее", "скорее", "жми", "переходи"] content
       then 1 else 0),
      (if anyTokCI ["только сегодня", "ограниченное время", "не упусти", "последний шанс"] content
       then 1 else 0),
      classRuns isSpamEmoji 5 content ]
  let patternScore : ℚ := ((patternCounts.foldl (· + ·) 0 : Nat) : ℚ) * mkRat 1 5
  let patternReasons : List String :=
    (patternCounts.filter (0 < ·)).map (fun _ => "Спам: подозрительные паттерны")
  let upperCount := (content.filter isUpperLatCyr).length
  let upperHit := 2 * upperCount > jsLen content && jsLen content > 20
  let words := splitWs (lowerL content)
  let counted := countWords ((words.filter (fun w => 2 < jsLen w)))
  let maxWordCount := (counted.map (·.2)).foldl max 0
  let repHit :=
    decide (counted ≠ []) &&
    decide ((maxWordCount : ℚ) > max ((words.length : ℚ) * mkRat 3 10) 3)
  let spamScore : ℚ :=
    patternScore + (if upperHit then mkRat 2 5 else 0) + (if repHit then mkRat 3 10 else 0)
  { detected := 0 < spamScore,
    reasons := patternReasons ++
      (if upperHit then ["Спам: чрезмерное использование заглавных букв"] else []) ++
      (if repHit then ["Спам: чрезмерное повторение слов"] else []),
    confidence := min spamScore 1 }

/-- The class `[\s\u{1F600}-\u{1F6FF}\u{2600}-\u{26FF}\u{2700}-\u{27BF}]`
of the first (stateless) low-quality pattern. -/
def isLqEmojiOrWs (c : Char) : Bool :=
  isJsWs c ||
  (0x1F600 ≤ c.toNat && c.toNat ≤ 0x1F6FF) ||
  (0x2600 ≤ c.toNat && c.toNat ≤ 0x26FF) ||
  (0x2700 ≤ c.toNat && c.toNat ≤ 0x27BF)

/-- Full-match predicate of `/^[.]{3,}$/`. -/
def dotsOnly (s : List Char) : Bool :=
  3 ≤ s.length && s.all (fun c => c = '.')

/-- Full-match predicate of `/^[-_=+]{3,}$/`. -/
def sepsOnly (s : List Char) : Bool :=
  3 ≤ s.length && s.all (fun c => c = '-' || c = '_' || c = '=' || c = '+')

/-- `ContentFilterService.checkForLowQuality`: the short-content rule,
then the three patterns in order with `break` on the first match; the
dots and separators patterns thread their `lastIndex` state. -/
def checkForLowQuality (content : List Char) (st : LQState) : RuleCheck × LQState :=
  let short := jsLen (jsTrim content) < 3
  let shortConf : ℚ := if short then mkRat 4 5 else 0
  let shortReasons := if short then ["Низкое качество: слишком короткое сообщение"] else []
  let patReason := "Низкое качество: только символы/эмодзи"
  if content.all isLqEmojiOrWs then
    ({ detected := true, reasons := shortReasons ++ [patReason],
       confidence := max shortConf (mkRat 9 10) }, st)
  else
    let (m2, li2) := gAnchoredTest (dotsOnly content) (jsLen content) st.liDots
    if m2 then
      ({ detected := true, reasons := shortReasons ++ [patReason],
         confidence := max shortConf (mkRat 9 10) }, ⟨li2, st.liSeps⟩)
    else
      let (m3, li3) := gAnchoredTest (sepsOnly content) (jsLen content) st.liSeps
      if m3 then
        ({ detected := true, reasons := shortReasons ++ [patReason],
           confidence := max shortConf (mkRat 9 10) }, ⟨li2, li3⟩)
      else
        ({ detected := short, reasons := shortReasons, confidence := shortConf }, ⟨li2, li3⟩)

/-- `ContentFilterService.filterContent`.  Empty / whitespace-only text
is blocked for media type `text` and passed otherwise; the three rule
checks then combine by maximum confidence, and the final decision is
`reasons nonempty AND confidence ≥ 0.7`. -/
def filterContent (content : String) (mediaType : Option String) (st : LQState) :
    FilterResult × LQState :=
  if (jsTrim content.data).isEmpty then
    if (mediaType.getD "").isEmpty || mediaType.getD "" = "text" then
      ({ isFiltered := true, reasons := ["Пустое сообщение"], confidence := 1 }, st)
    else
      ({ isFiltered := false, reasons := [], confidence := 1 }, st)
  else
    let ad := checkForAds content.data
    let sp := checkForSpam content.data
    let (lq, st') := checkForLowQuality content.data st
    let reasons :=
      (if ad.detected then ad.reasons else []) ++
      (if sp.detected then sp.reasons else []) ++
      (if lq.detected then lq.reasons else [])
    let conf₂ := if ad.detected then max 0 ad.confidence else 0
    let conf₁ := if sp.detected then max conf₂ sp.confidence else conf₂
    let conf := if lq.detected then max conf₁ lq.confidence else conf₁
    ({ isFiltered := decide (0 < reasons.length) && decide (mkRat 7 10 ≤ conf),
       reasons := reasons, confidence := conf }, st')

/-! ## AIAnalysisService (src/src/test-ai-analysis.ts)

The raw OpenAI JSON is modelled post-parsing: `Option Int` stands for
`parseInt` (with `none` for `NaN`), `Option ℚ` for `parseFloat`,
`Option String` for an absent-or-falsy string field and
`Option (List String)` for a field that may fail `Array.isArray`.
The external call itself is an oracle (`ExtOutcome`); `analyzeContent`'s
`try`/`catch` routes both a failed call and a `validateAndTransformResponse`
throw to `getFallbackAnalysis`. -/

structure ImportanceAnalysis where
  score : Int
  reasoning : String
  factors : List String
deriving DecidableEq

structure CategoryAnalysis where
  category : String
  confidence : ℚ
  keywords : List String
deriving DecidableEq

structure AIAnalysisResult where
  importance : ImportanceAnalysis
  category : CategoryAnalysis
  sentiment : String
  keywords : List String
  isSpam : Bool
  isAd : Bool
  summary : Option String
deriving DecidableEq

structure RawImportance where
  score : Option Int
  reasoning : Option String
  factors : Option (List String)
deriving DecidableEq

structure RawCategory where
  category : String
  confidence : Option ℚ
  keywords : Option (List String)
deriving DecidableEq

structure RawResponse where
  importance : Option RawImportance
  category : Option RawCategory
  sentiment : Option String
  keywords : Option (List String)
  isSpam : Bool
  isAd : Bool
  summary : Option String
deriving DecidableEq

/-- Outcome of the external OpenAI call: any timeout / HTTP error /
non-JSON body is `failure`; a parsed JSON body is `success`. -/
inductive ExtOutcome where
  | failure
  | success (raw : RawResponse)
deriving DecidableEq

/-- The closed 15-item category taxonomy of the service. -/
def aiCategories : List String :=
  ["политика", "экономика", "технологии", "наука", "спорт", "культура",
   "медицина", "происшествия", "международные новости", "общество",
   "криптовалюты", "финансы", "образование", "экология", "другое"]

def validSentiments : List String := ["positive", "negative", "neutral"]

/-- `parseInt(x) || 0` (NaN becomes 0). -/
def jsOrZeroInt (o : Option Int) : Int := o.getD 0

/-- `parseFloat(x) || 0.5` (NaN becomes 0.5; so does a parsed 0, since
`0` is falsy in JS). -/
def jsOrHalf (o : Option ℚ) : ℚ :=
  match o with
  | none => mkRat 1 2
  | some q => if q = 0 then mkRat 1 2 else q

/-- `AIAnalysisService.validateAndTransformResponse`: throws on a missing
`importance`/`category` object, otherwise degrades each malformed field
individually (score clamped to [0,100], confidence to [0,1], category to
the taxonomy or `другое`, sentiment to `neutral`, non-array keyword
fields to `[]`) while passing well-formed fields through. -/
def validateAndTransformResponse (d : RawResponse) : Except String AIAnalysisResult :=
  match d.importance, d.category with
  | some imp, some cat =>
    .ok
      { importance :=
          { score := max 0 (min 100 (jsOrZeroInt imp.score)),
            reasoning := (imp.reasoning).getD "Автоматическая оценка",
            factors := (imp.factors).getD [] },
        category :=
          { category := if aiCategories.contains cat.category then cat.category else "другое",
            confidence := max 0 (min 1 (jsOrHalf cat.confidence)),
            keywords := (cat.keywords).getD [] },
        sentiment :=
          if validSentiments.contains ((d.sentiment).getD "") then (d.sentiment).getD ""
          else "neutral",
        keywords := (d.keywords).getD [],
        isSpam := d.isSpam,
        isAd := d.isAd,
        summary := d.summary }
  | _, _ => .error "Неверная структура ответа от ИИ"

/-- The fixed critical-keyword list of `calculateFallbackImportance`. -/
def fallbackKeywords : List String :=
  ["срочно", "экстренно", "важно", "внимание",
   "президент", "правительство", "дума",
   "война", "конфликт", "теракт", "авария",
   "курс", "доллар", "рубль", "инфляция"]

/-- `AIAnalysisService.calculateFallbackImportance`: base 30, +10 per
length bracket (200, 500), +15 per matched keyword, clamped to [0,100]. -/
def calculateFallbackImportance (content : String) : Int :=
  let base : Int := 30
  let lenScore : Int :=
    (if 200 < jsLen content.data then 10 else 0) +
    (if 500 < jsLen content.data then 10 else 0)
  let lower := lowerL content.data
  let matched := fallbackKeywords.filter (fun k => hasTok k.data lower)
  max 0 (min 100 (base + lenScore + (matched.length : Int) * 15))

/-- The `[^\w\sа-яё]` removal class of `extractSimpleKeywords` (kept
characters; the `/i` flag also keeps uppercase Cyrillic). -/
def isKeywordChar (c : Char) : Bool :=
  c.isAlphanum || c = '_' || isJsWs c ||
  (0x430 ≤ c.toNat && c.toNat ≤ 0x44F) || c.toNat = 0x451 ||
  (0x410 ≤ c.toNat && c.toNat ≤ 0x42F) || c.toNat = 0x401

/-- Repeatedly pick the first word of maximal count: a stable descending
sort by count, as JS's stable `sort((a, b) => b[1] - a[1])` produces. -/
def pickMax (x : List Char × Nat) :
    List (List Char × Nat) → (List Char × Nat) × List (List Char × Nat)
  | [] => (x, [])
  | y :: ys =>
    if x.2 < y.2 then
      let (m, rest) := pickMax y ys
      (m, x :: rest)
    else
      let (m, rest) := pickMax x ys
      (m, y :: rest)

def sortCountDesc : Nat → List (List Char × Nat) → List (List Char × Nat)
  | 0, _ => []
  | _, [] => []
  | fuel + 1, x :: xs =>
    let (m, rest) := pickMax x xs
    m :: sortCountDesc fuel rest

/-- `AIAnalysisService.extractSimpleKeywords`: lowercase, drop characters
outside `[\w\sа-яё]`, split on whitespace, keep words longer than 3,
count occurrences and return the 5 most frequent words. -/
def extractSimpleKeywords (content : String) : List String :=
  let cleaned := (lowerL content.data).filter isKeywordChar
  let words := (splitWs cleaned).filter (fun w => 3 < jsLen w)
  let counted := countWords words
  ((sortCountDesc counted.length counted).take 5).map (fun wc => ⟨wc.1⟩)

/-- `AIAnalysisService.getFallbackAnalysis`: the deterministic
no-external-call fallback assessment. -/
def getFallbackAnalysis (content : String) : AIAnalysisResult :=
  let keywords := extractSimpleKeywords content
  { importance :=
      { score := calculateFallbackImportance content,
        reasoning := "Базовый анализ (ИИ недоступен)",
        factors := ["Длина сообщения", "Наличие ключевых слов"] },
    category := { category := "другое", confidence := mkRat 3 10, keywords := keywords },
    sentiment := "neutral",
    keywords := keywords,
    isSpam := false,
    isAd := false,
    summary := none }

/-- `AIAnalysisService.analyzeContent`: on a successful call the response
is validated and transformed; any thrown error — the call failing or the
response missing its `importance`/`category` structure — is caught and
answered with the fallback analysis. -/
def analyzeContent (outcome : ExtOutcome) (content : String) : AIAnalysisResult :=
  match outcome with
  | .failure => getFallbackAnalysis content
  | .success raw =>
    match validateAndTransformResponse raw with
    | .ok r => r
    | .error _ => getFallbackAnalysis content

/-! ## NewsScoreService (src/unnamed/part_002)

`ScoreFactors` is the record `extractFactors` produces; the four
sub-score functions, the weighted combination of `calculateScore`, the
tier classification and the weight validation are embedded directly.
`calculateScoreFromFactors` is the body of `calculateScore` after factor
extraction (the extraction itself reads the wall clock and the channel
metadata, which appear here as fields of `ScoreFactors`). -/

structure ScoreFactors where
  contentLength : Nat
  hasNumbers : Bool
  hasKeywords : Bool
  hasUrls : Bool
  hasMediaAttachment : Bool
  aiImportanceScore : ℚ
  aiCategory : String
  aiSentiment : String
  aiKeywordsCount : Nat
  channelReliability : ℚ
  channelSubscribers : Option Nat
  isVerifiedChannel : Bool
  timeOfDay : Nat
  isBreakingNews : Bool
deriving DecidableEq

structure ScoringWeights where
  aiWeight : ℚ
  contentWeight : ℚ
  sourceWeight : ℚ
  timelinessWeight : ℚ
deriving DecidableEq

/-- The constructor's default weights. -/
def defaultWeights : ScoringWeights :=
  { aiWeight := mkRat 1 2, contentWeight := mkRat 1 4, sourceWeight := mkRat 3 20,
    timelinessWeight := mkRat 1 10 }

structure NewsScoreBreakdown where
  contentScore : ℚ
  aiScore : ℚ
  sourceScore : ℚ
  timelinesScore : ℚ
deriving DecidableEq

structure NewsScore where
  finalScore : ℤ
  breakdown : NewsScoreBreakdown
  classification : String
deriving DecidableEq

/-- `NewsScoreService.calculateContentScore`. -/
def calculateContentScore (f : ScoreFactors) : ℚ :=
  let score : ℚ :=
    (if 100 < f.contentLength then 10 else 0) +
    (if 300 < f.contentLength then 10 else 0) +
    (if 500 < f.contentLength then 10 else 0) +
    (if f.hasKeywords then 20 else 0) +
    (if f.hasNumbers then 10 else 0) +
    (if f.hasUrls then 5 else 0) +
    (if f.hasMediaAttachment then 10 else 0) +
    (if f.isBreakingNews then 25 else 0)
  min 100 score

/-- `NewsScoreService.normalizeAIScore`. -/
def normalizeAIScore (aiScore : ℚ) : ℚ := max 0 (min 100 aiScore)

/-- `NewsScoreService.calculateSourceScore`. -/
def calculateSourceScore (f : ScoreFactors) : ℚ :=
  let score : ℚ := 50 + f.channelReliability * 30 +
    (if f.isVerifiedChannel then 15 else 0) +
    (match f.channelSubscribers with
     | none => 0
     | some n =>
       if n = 0 then 0
       else (if 1000 < n then 5 else 0) + (if 10000 < n then 5 else 0) +
            (if 100000 < n then 5 else 0))
  max 0 (min 100 score)

/-- `NewsScoreService.calculateTimelinessScore`. -/
def calculateTimelinessScore (f : ScoreFactors) : ℚ :=
  if f.isBreakingNews then 100
  else
    let score : ℚ := 50 +
      (if 8 ≤ f.timeOfDay && f.timeOfDay ≤ 22 then 20 else 0) +
      (if 9 ≤ f.timeOfDay && f.timeOfDay ≤ 18 then 10 else 0)
    max 0 (min 100 score)

/-- `NewsScoreService.classifyImportance` (applied, as in the source, to
the rounded weighted score before final clamping). -/
def classifyImportance (score : ℤ) : String :=
  if 85 ≤ score then "critical"
  else if 70 ≤ score then "high"
  else if 50 ≤ score then "medium"
  else if 30 ≤ score then "low"
  else "minimal"

/-- `NewsScoreService.validateWeights`: returns whether the warning is
logged; nothing else happens on a bad weight sum (no exception). -/
def validateWeights (w : ScoringWeights) : Bool :=
  let total := w.aiWeight + w.contentWeight + w.sourceWeight + w.timelinessWeight
  decide (|total - 1| > mkRat 1 100)

/-- Constructing the service: the provided partial weights override the
defaults, the result is validated (log only) and always kept. -/
def newsScoreServiceInit (w : ScoringWeights) : ScoringWeights × Bool :=
  (w, validateWeights w)

/-- `NewsScoreService.calculateScore` from extracted factors: the four
sub-scores, the rounded weighted combination, the tier classification,
and the [0,100]-clamped final score. -/
def calculateScoreFromFactors (w : ScoringWeights) (f : ScoreFactors) : NewsScore :=
  let contentScore := calculateContentScore f
  let aiScore := normalizeAIScore f.aiImportanceScore
  let sourceScore := calculateSourceScore f
  let timelinesScore := calculateTimelinessScore f
  let finalScore := jsRound
    (contentScore * w.contentWeight + aiScore * w.aiWeight +
     sourceScore * w.sourceWeight + timelinesScore * w.timelinessWeight)
  { finalScore := max 0 (min 100 finalScore),
    breakdown :=
      { contentScore := contentScore, aiScore := aiScore,
        sourceScore := sourceScore, timelinesScore := timelinesScore },
    classification := classifyImportance finalScore }

/-! ## CriticalNewsDetector (src/unnamed/part_008)

The detector's optional AI call is modelled by an
`Option ImportanceAnalysis` argument (`none` = AI disabled or its call
failed, both of which leave the heuristic factors untouched); `err`
injects an exception anywhere inside `analyze`'s `try` block, which the
source catches to return the safe "not critical" result. -/

structure Message where
  message_id : Nat
  channel_id : Nat
  content : Option String
  media_type : String
  is_filtered : Bool
  is_processed : Bool
  importance_score : Nat
  category : Option String
deriving DecidableEq

/-- JS truthiness of an optional string field. -/
def optTruthy (o : Option String) : Bool :=
  match o with
  | none => false
  | some s => decide (s ≠ "")

structure CriticalityFactors where
  importance_score : ℚ
  ai_reasoning : Option String
  critical_keywords : List String
  urgency_markers : List String
  critical_category : Bool
  breaking_news : Bool
  emergency_type : Option String
  time_sensitivity : String
deriving DecidableEq

structure CriticalNewsResult where
  is_critical : Bool
  criticality_score : Nat
  confidence : ℚ
  factors : CriticalityFactors
  reasons : List String
  recommended_action : String
deriving DecidableEq

structure CriticalNewsConfig where
  critical_threshold : Nat
  emergency_threshold : Nat
  ai_weight : ℚ
  keywords_weight : ℚ
  category_weight : ℚ
  use_keyword_analysis : Bool
  use_category_analysis : Bool
deriving DecidableEq

def defaultDetectorConfig : CriticalNewsConfig :=
  { critical_threshold := 80, emergency_threshold := 90,
    ai_weight := mkRat 3 5, keywords_weight := mkRat 3 10, category_weight := mkRat 1 10,
    use_keyword_analysis := true, use_category_analysis := true }

/-- The seven critical-keyword lexicons, in the source's field order. -/
def ckEmergency : List String :=
  ["экстренно", "срочно", "внимание", "важно", "критично",
   "чрезвычайная ситуация", "ЧС", "катастрофа", "авария",
   "emergency", "urgent", "critical", "breaking"]

def ckDisaster : List String :=
  ["землетрясение", "цунами", "наводнение", "пожар", "ураган", "торнадо",
   "извержение", "оползень", "лавина", "засуха",
   "earthquake", "tsunami", "flood", "fire", "hurricane"]

def ckSecurity : List String :=
  ["теракт", "террор", "взрыв", "стрельба", "нападение", "захват",
   "заложники", "угроза", "эвакуация", "блокировка",
   "terrorism", "attack", "shooting", "threat", "evacuation"]

def ckWar : List String :=
  ["война", "военные действия", "обстрел", "бомбардировка", "мобилизация",
   "военное положение", "конфликт", "вторжение",
   "war", "military action", "bombing", "mobilization", "conflict"]

def ckHealth : List String :=
  ["эпидемия", "пандемия", "вирус", "заражение", "карантин", "вспышка",
   "болезнь", "смертельный", "токсичный", "отравление",
   "pandemic", "epidemic", "virus", "outbreak", "quarantine"]

def ckInfrastructure : List String :=
  ["отключение", "блэкаут", "авария на станции", "разрушение моста",
   "отказ системы", "сбой", "транспортный коллапс", "энергосистема",
   "blackout", "power outage", "system failure", "infrastructure collapse"]

def ckEconomic : List String :=
  ["обвал", "кризис", "дефолт", "банкротство", "девальвация",
   "гиперинфляция", "экономический коллапс", "финансовый кризис",
   "crash", "crisis", "default", "bankruptcy", "devaluation"]

def allCriticalKeywords : List String :=
  ckEmergency ++ ckDisaster ++ ckSecurity ++ ckWar ++ ckHealth ++
  ckInfrastructure ++ ckEconomic

def urgencyMarkers : List String :=
  ["прямо сейчас", "в данный момент", "происходит сейчас", "только что",
   "немедленно", "в эту минуту", "на данный момент",
   "right now", "happening now", "just in", "breaking news", "live update",
   "developing story"]

def criticalCategories : List String :=
  ["breaking_news", "emergency", "disaster", "security", "health_alert",
   "government_alert", "weather_emergency", "military_action", "terrorism",
   "natural_disaster"]

/-- `CriticalNewsDetector.findCriticalKeywords`: all lexicon entries whose
lowercase form occurs in the lowercased content, deduplicated keeping
first occurrence. -/
def findCriticalKeywords (content : String) : List String :=
  let text := lowerL content.data
  let found := allCriticalKeywords.filter (fun k => hasTok (lowerL k.data) text)
  found.eraseDups

/-- `CriticalNewsDetector.findUrgencyMarkers`. -/
def findUrgencyMarkers (content : String) : List String :=
  let text := lowerL content.data
  urgencyMarkers.filter (fun k => hasTok (lowerL k.data) text)

/-- `CriticalNewsDetector.detectBreakingNews`. -/
def detectBreakingNews (content : String) : Bool :=
  let text := lowerL content.data
  ["breaking", "срочные новости", "экстренные новости", "только что",
   "just in", "developing", "последние новости"].any
    (fun m => hasTok m.data text)

/-- `CriticalNewsDetector.detectEmergencyType`: first matching lexicon in
the source's priority order. -/
def detectEmergencyType (keywords : List String) : Option String :=
  if keywords.any (fun k => ckDisaster.contains k) then some "natural_disaster"
  else if keywords.any (fun k => ckSecurity.contains k) then some "terrorism"
  else if keywords.any (fun k => ckWar.contains k) then some "war"
  else if keywords.any (fun k => ckHealth.contains k) then some "health_emergency"
  else if keywords.any (fun k => ckInfrastructure.contains k) then some "infrastructure_failure"
  else if keywords.any (fun k => ckEconomic.contains k) then some "economic_crisis"
  else none

/-- `CriticalNewsDetector.determineTimeSensitivity`. -/
def determineTimeSensitivity (kw um : List String) (bn : Bool) (importance : ℚ) : String :=
  if 0 < um.length || bn then "immediate"
  else if 2 < kw.length || 85 < importance then "urgent"
  else if 0 < kw.length || 70 < importance then "important"
  else "normal"

/-- `CriticalNewsDetector.extractCriticalityFactors` (the AI branch is the
`aiResult` argument; it only adds reasoning and can only raise the
importance score, after time sensitivity has been fixed). -/
def extractCriticalityFactors (cfg : CriticalNewsConfig)
    (aiResult : Option ImportanceAnalysis) (m : Message) : CriticalityFactors :=
  let doKw := cfg.use_keyword_analysis && optTruthy m.content
  let contentStr := (m.content).getD ""
  let kw := if doKw then findCriticalKeywords contentStr else []
  let um := if doKw then findUrgencyMarkers contentStr else []
  let bn := if doKw then detectBreakingNews contentStr else false
  let et := if doKw then detectEmergencyType kw else none
  let cc := cfg.use_category_analysis && optTruthy m.category &&
    criticalCategories.contains ⟨lowerL ((m.category).getD "").data⟩
  let ts := determineTimeSensitivity kw um bn (m.importance_score : ℚ)
  let (reasoning, importance) :=
    match aiResult, optTruthy m.content with
    | some a, true => (some a.reasoning, max (m.importance_score : ℚ) (a.score : ℚ))
    | _, _ => (none, (m.importance_score : ℚ))
  { importance_score := importance, ai_reasoning := reasoning,
    critical_keywords := kw, urgency_markers := um,
    critical_category := cc, breaking_news := bn,
    emergency_type := et, time_sensitivity := ts }

/-- `CriticalNewsDetector.calculateCriticalityScore`. -/
def calculateCriticalityScore (cfg : CriticalNewsConfig) (f : CriticalityFactors) : Nat :=
  let aiScore := f.importance_score * cfg.ai_weight
  let keywordScore :=
    min ((f.critical_keywords.length : ℚ) * 15 + (f.urgency_markers.length : ℚ) * 10) 40 *
      cfg.keywords_weight
  let categoryScore : ℚ := if f.critical_category then 20 else 0
  let score := aiScore + keywordScore + categoryScore * cfg.category_weight +
    (if f.breaking_news then 15 else 0) +
    (if f.emergency_type.isSome then 10 else 0) +
    (if f.time_sensitivity = "immediate" then 10 else 0) +
    (if f.time_sensitivity = "urgent" then 5 else 0)
  (min (jsRound score) 100).toNat

/-- `CriticalNewsDetector.calculateConfidence`. -/
def calculateConfidence (f : CriticalityFactors) : ℚ :=
  let base : ℚ := mkRat 1 2 + (if f.ai_reasoning.isSome then mkRat 3 10 else 0)
  let indicators : Nat := f.critical_keywords.length + f.urgency_markers.length +
    (if f.critical_category then 1 else 0) + (if f.breaking_news then 1 else 0)
  min (base + min ((indicators : ℚ) * mkRat 1 10) (mkRat 2 5)) 1

/-- `CriticalNewsDetector.generateReasons`. -/
def generateReasons (cfg : CriticalNewsConfig) (f : CriticalityFactors) (score : Nat) :
    List String :=
  let reasons :=
    (if 85 ≤ f.importance_score
     then ["Высокий балл важности от ИИ: " ++ toString f.importance_score] else []) ++
    (if 0 < f.critical_keywords.length
     then ["Найдены критические ключевые слова: " ++ String.intercalate ", " f.critical_keywords]
     else []) ++
    (if 0 < f.urgency_markers.length
     then ["Найдены маркеры срочности: " ++ String.intercalate ", " f.urgency_markers] else []) ++
    (if f.critical_category then ["Сообщение относится к критической категории"] else []) ++
    (if f.breaking_news then ["Определено как экстренная новость"] else []) ++
    (match f.emergency_type with
     | some t => ["Тип чрезвычайной ситуации: " ++ t]
     | none => []) ++
    (if f.time_sensitivity = "immediate" then ["Требует немедленного внимания"] else [])
  if reasons.isEmpty && cfg.critical_threshold ≤ score then
    ["Комбинация факторов указывает на критичность"]
  else reasons

/-- `CriticalNewsDetector.determineRecommendedAction`. -/
def determineRecommendedAction (cfg : CriticalNewsConfig) (score : Nat) : String :=
  if cfg.emergency_threshold ≤ score then "immediate_notification"
  else if cfg.critical_threshold ≤ score then "priority_notification"
  else if 60 ≤ score then "standard_notification"
  else "no_notification"

/-- `CriticalNewsDetector.getEmptyFactors`. -/
def getEmptyFactors : CriticalityFactors :=
  { importance_score := 0, ai_reasoning := none, critical_keywords := [],
    urgency_markers := [], critical_category := false, breaking_news := false,
    emergency_type := none, time_sensitivity := "normal" }

/-- `CriticalNewsDetector.analyze`: `err = true` injects an exception
anywhere inside the `try` block; the `catch` answers it with the safe
"not critical, do not notify" result. -/
def analyze (cfg : CriticalNewsConfig) (aiResult : Option ImportanceAnalysis)
    (err : Bool) (m : Message) : CriticalNewsResult :=
  if err then
    { is_critical := false, criticality_score := 0, confidence := 0,
      factors := getEmptyFactors,
      reasons := ["Analysis failed due to error"],
      recommended_action := "no_notification" }
  else
    let factors := extractCriticalityFactors cfg aiResult m
    let score := calculateCriticalityScore cfg factors
    { is_critical := cfg.critical_threshold ≤ score,
      criticality_score := score,
      confidence := calculateConfidence factors,
      factors := factors,
      reasons := generateReasons cfg factors score,
      recommended_action := determineRecommendedAction cfg score }

/-! ## NotificationService (src/unnamed/part_008) and the persisted store

`User` follows `src/src/database/models/User.ts`.  The wall clock of
`isInQuietHours` is the `now` argument, in minutes since midnight.  The
notification store (`notifications` table) is a list of records plus a
serial id counter; `NotificationDAO.create` is a plain `INSERT` — the
source performs no existence check of any kind before inserting. -/

structure QuietHours where
  start : String
  stop : String
deriving DecidableEq

structure UserPreferences where
  notifications : Bool
  digest_time : String
  categories : List String
  keywords : List String
  importance_threshold : Nat
  quiet_hours : Option QuietHours
deriving DecidableEq

structure User where
  user_id : Nat
  telegram_id : Nat
  is_active : Bool
  preferences : UserPreferences
deriving DecidableEq

inductive NotificationType where
  | immediate
  | digest
  | system
deriving DecidableEq

structure Notification where
  notification_id : Nat
  user_id : Nat
  message_id : Option Nat
  notification_type : NotificationType
  title : Option String
  content : String
  is_sent : Bool
deriving DecidableEq

structure NotifStore where
  records : List Notification
  nextId : Nat
deriving DecidableEq

def emptyStore : NotifStore := { records := [], nextId := 1 }

/-- `"HH:MM".split(':')` over the code points. -/
def splitColonGo (acc : List Char) : List Char → List (List Char)
  | [] => [acc.reverse]
  | c :: cs =>
    if c = ':' then acc.reverse :: splitColonGo [] cs else splitColonGo (c :: acc) cs

/-- Decimal `Number("...")` on a digit string. -/
def digitsToNat (s : List Char) : Nat :=
  s.foldl (fun a c => a * 10 + (c.toNat - 48)) 0

/-- `"HH:MM".split(':').map(Number)` folded into minutes since midnight. -/
def parseHHMM (s : String) : Nat :=
  match splitColonGo [] s.data with
  | [h, m] => digitsToNat h * 60 + digitsToNat m
  | _ => 0

/-- `NotificationService.isInQuietHours`: wrap-midnight windows
(`start > end`) OR the two half-ranges together. -/
def isInQuietHours (u : User) (now : Nat) : Bool :=
  match u.preferences.quiet_hours with
  | none => false
  | some qh =>
    let startTime := parseHHMM qh.start
    let endTime := parseHHMM qh.stop
    if startTime > endTime then
      now ≥ startTime || now ≤ endTime
    else
      now ≥ startTime && now ≤ endTime

/-- `NotificationService.shouldNotifyUser`: disabled preference, then
user threshold, then criticality, then quiet hours with the ≥ 90
override. -/
def shouldNotifyUser (u : User) (a : CriticalNewsResult) (now : Nat) : Bool × String :=
  if !u.preferences.notifications then
    (false, "User has notifications disabled")
  else if a.criticality_score < u.preferences.importance_threshold then
    (false, "Score " ++ toString a.criticality_score ++ " below user threshold " ++
      toString u.preferences.importance_threshold)
  else if !a.is_critical then
    (false, "Message is not critical")
  else if isInQuietHours u now && a.criticality_score < 90 then
    (false, "User is in quiet hours and message is not extremely critical")
  else
    (true, "Critical message (score: " ++ toString a.criticality_score ++
      ", critical: " ++ (if a.is_critical then "true" else "false") ++ ")")

/-- `NotificationService.generateNotificationTitle`. -/
def generateNotificationTitle (a : CriticalNewsResult) : String :=
  if 90 ≤ a.criticality_score then "🚨 Критически важная новость"
  else if 80 ≤ a.criticality_score then "⚠️ Важная новость"
  else "📢 Срочная новость"

/-- `NotificationService.generateNotificationContent` (truncation to 200
with an ellipsis suffix). -/
def generateNotificationContent (m : Message) : String :=
  let content := (m.content).getD ""
  if 200 < jsLen content.data then
    ⟨(content.data.take 197)⟩ ++ "..."
  else content

/-- `NotificationDAO.create`: an unconditional `INSERT ... RETURNING *`. -/
def notificationDAOcreate (st : NotifStore) (userId : Nat) (messageId : Option Nat)
    (ntype : NotificationType) (title : Option String) (content : String) :
    Notification × NotifStore :=
  let n : Notification :=
    { notification_id := st.nextId, user_id := userId, message_id := messageId,
      notification_type := ntype, title := title, content := content, is_sent := false }
  (n, { records := st.records ++ [n], nextId := st.nextId + 1 })

/-- `DatabaseResult<T>` (src/unnamed/part_003): success flag with
optional data and error (the unused `affected_rows` field is omitted). -/
structure DatabaseResult (α : Type) where
  success : Bool
  data : Option α
  error : Option String
deriving DecidableEq

/-- The concrete `UserService` (src/src/services/UserService.ts) exposes
`createUser`, `getUserByTelegramId`, `getUserById`, `updateUser`,
`updateUserPreferences`, `userExists`, `getActiveUsers`,
`deactivateUser` and `reactivateUser` — there is no `getAllUsers`
method (only the jest mock of the NotificationService test suite has
one).  `this.userService.getAllUsers()` is therefore `undefined(...)`
and throws a `TypeError` on every invocation. -/
def userServiceGetAllUsers : Except String (List User) :=
  Except.error "this.userService.getAllUsers is not a function"

/-- The per-user body of `processMessageForNotifications`'s loop:
inactive users and negative `shouldNotifyUser` decisions are skipped,
everyone else gets a fresh `immediate` record inserted. -/
def notifyStep (analysis : CriticalNewsResult) (m : Message) (now : Nat)
    (acc : List Notification × NotifStore) (u : User) : List Notification × NotifStore :=
  if !u.is_active then acc
  else if !(shouldNotifyUser u analysis now).1 then acc
  else
    let (n, st') := notificationDAOcreate acc.2 u.user_id (some m.message_id)
      NotificationType.immediate (some (generateNotificationTitle analysis))
      (generateNotificationContent m)
    (acc.1 ++ [n], st')

/-- `NotificationService.processMessageForNotifications`: analyze the
message's criticality and return no records if not critical; then fetch
the recipients with `this.userService.getAllUsers()` and create one
`immediate` record per positive `shouldNotifyUser` decision.  The fetch
always throws (`userServiceGetAllUsers`: the method does not exist on
the concrete `UserService`), the method's own `catch` turns that into
`{success: false, error: 'Failed to process message for
notifications'}`, and the creation loop — which itself contains no
existence check against the store — is never reached. -/
def processMessageForNotifications (cfg : CriticalNewsConfig)
    (aiResult : Option ImportanceAnalysis) (err : Bool)
    (m : Message) (now : Nat) (st : NotifStore) :
    DatabaseResult (List Notification) × NotifStore :=
  let analysis := analyze cfg aiResult err m
  if !analysis.is_critical then
    ({ success := true, data := some [], error := none }, st)
  else
    match userServiceGetAllUsers with
    | Except.error _ =>
      ({ success := false, data := none,
         error := some "Failed to process message for notifications" }, st)
    | Except.ok users =>
      let out := users.foldl (notifyStep analysis m now) ([], st)
      ({ success := true, data := some out.1, error := none }, out.2)

/-- Records of kind `immediate` held by the store for a given
(recipient, message) pair. -/
def immediateCount (st : NotifStore) (userId messageId : Nat) : Nat :=
  (st.records.filter (fun n =>
    n.user_id = userId && n.message_id = some messageId &&
    n.notification_type = NotificationType.immediate)).length

/-! ## NotificationSender (src/src/services/NotificationSender.ts)

`SenderEnv` holds the external collaborators: the user store, the
Telegram bot's readiness, the per-chat reachability probe and the
delivery outcome the channel reports for a given record.  `SenderState`
carries the persisted notification store plus the list of delivery
attempts actually made against the channel, so "no delivery attempt" is
expressible. -/

structure SendResult where
  success : Bool
  messageId : Option Nat
  error : Option String
deriving DecidableEq

structure SenderEnv where
  users : List User
  botReady : Bool
  chatAccessible : Nat → Bool
  sendOutcome : Nat → SendResult

structure NotificationDeliveryResult where
  notification_id : Nat
  user_id : Nat
  channel : String
  success : Bool
  messageId : Option Nat
  error : Option String
deriving DecidableEq

structure BulkDeliveryResult where
  total : Nat
  successful : Nat
  failed : Nat
  results : List NotificationDeliveryResult
  errors : List String
deriving DecidableEq

structure SenderState where
  store : NotifStore
  attempts : List Nat
deriving DecidableEq

/-- `NotificationSender.createFailureResult`. -/
def createFailureResult (n : Notification) (channel err : String) :
    NotificationDeliveryResult :=
  { notification_id := n.notification_id, user_id := n.user_id, channel := channel,
    success := false, messageId := none, error := some err }

/-- `NotificationDAO.markAsSent`. -/
def markAsSent (st : NotifStore) (id : Nat) : NotifStore :=
  { st with records := (st.records.map
      (fun r => if r.notification_id = id then { r with is_sent := true } else r)) }

/-- `NotificationSender.sendViaTelegram`: bot readiness, the reachability
probe, then the actual delivery attempt. -/
def sendViaTelegram (env : SenderEnv) (st : SenderState) (n : Notification) (u : User) :
    NotificationDeliveryResult × SenderState :=
  if !env.botReady then (createFailureResult n "telegram" "Telegram Bot not available", st)
  else if !env.chatAccessible u.telegram_id then
    (createFailureResult n "telegram" "Chat not accessible", st)
  else
    let sr := env.sendOutcome n.notification_id
    ({ notification_id := n.notification_id, user_id := n.user_id, channel := "telegram",
       success := sr.success, messageId := sr.messageId, error := sr.error },
     { st with attempts := st.attempts ++ [n.notification_id] })

/-- Reading a property an object does not have yields `undefined`, which
is falsy: the concrete `UserService.getUserById` resolves to a bare
`User`, which has no `success` (or `data`) field. -/
def undefinedTruthy : Bool := false

/-- The `TypeError` message for reading `success` on the `null` that
`getUserById` returns for a missing user (V8 wording; the exact text is
engine-specific).  `sendNotification`'s `catch` turns it into a failure
result. -/
def nullReadSuccessMsg : String :=
  "Cannot read properties of null (reading 'success')"

/-- `NotificationSender.sendNotification` composed with the concrete
`UserService`: `getUserById` resolves to `User | null`, not to the
`{success, data}` `DatabaseResult` the guard `!userResult.success ||
!userResult.data` expects.  For a found user the `success` read yields
`undefined` (falsy), so the guard fires and the method returns the
`User not found` failure; for a missing user the read throws on `null`
and the `catch` wraps the `TypeError`.  The notifications-disabled
check, the delivery and the `markAsSent` call are kept below exactly as
written in the source, but are unreachable. -/
def sendNotification (env : SenderEnv) (st : SenderState) (n : Notification) :
    NotificationDeliveryResult × SenderState :=
  match env.users.find? (fun u => u.user_id = n.user_id) with
  | none =>
    (createFailureResult n "telegram" nullReadSuccessMsg, st)
  | some u =>
    if !undefinedTruthy then
      (createFailureResult n "telegram" "User not found", st)
    else if !u.preferences.notifications then
      (createFailureResult n "telegram" "Notifications disabled for user", st)
    else
      let (res, st1) := sendViaTelegram env st n u
      if res.success then
        (res, { st1 with store := markAsSent st1.store n.notification_id })
      else (res, st1)

/-- `NotificationSender.groupNotificationsByUser` (`Map` insertion order). -/
def groupAdd (n : Notification) :
    List (Nat × List Notification) → List (Nat × List Notification)
  | [] => [(n.user_id, [n])]
  | (uid, ns) :: rest =>
    if uid = n.user_id then (uid, ns ++ [n]) :: rest
    else (uid, ns) :: groupAdd n rest

def groupNotificationsByUser (ns : List Notification) : List (Nat × List Notification) :=
  ns.foldl (fun acc n => groupAdd n acc) []

/-- One delivery inside `sendBulkNotifications`'s inner loop: send,
collect the result, and record an error line for a failed send. -/
def bulkSendStep (env : SenderEnv) (uid : Nat)
    (acc : SenderState × List NotificationDeliveryResult × List String)
    (n : Notification) : SenderState × List NotificationDeliveryResult × List String :=
  let (res, st') := sendNotification env acc.1 n
  let errs := acc.2.2 ++
    (if !res.success && res.error.isSome then
      ["User " ++ toString uid ++ ": " ++ (res.error).getD ""] else [])
  (st', acc.2.1 ++ [res], errs)

/-- One user's group inside `sendBulkNotifications`'s loop. -/
def sendUserGroup (env : SenderEnv) (uid : Nat)
    (acc : SenderState × List NotificationDeliveryResult × List String)
    (ns : List Notification) :
    SenderState × List NotificationDeliveryResult × List String :=
  ns.foldl (bulkSendStep env uid) acc

/-- Total number of notifications held by a grouping. -/
def groupsSize (gs : List (Nat × List Notification)) : Nat :=
  (gs.map (fun g => g.2.length)).sum

/-- `NotificationSender.sendBulkNotifications`: group by user, deliver
in order, count successes, and report `failed` as the rest. -/
def sendBulkNotifications (env : SenderEnv) (st : SenderState) (ns : List Notification) :
    BulkDeliveryResult × SenderState :=
  let groups := groupNotificationsByUser ns
  let out := groups.foldl (fun acc g => sendUserGroup env g.1 acc g.2) (st, [], [])
  let results := out.2.1
  let successful := (results.filter (fun r => r.success)).length
  ({ total := ns.length, successful := successful,
     failed := results.length - successful, results := results, errors := out.2.2 }, out.1)

/-! ## MessageProcessingPipeline (src/unnamed/part_008)

`processBatch` with its single-flight guard.  Per-message processing
(`processSingleMessage`) performs external I/O and is abstracted as the
oracle `procOne`; `none` models a thrown exception (the loop's `catch`),
`some r` the returned per-message result.  `elapsed` is the wall-clock
duration the source writes into `processingTime` at the end of a
non-guarded run. -/

structure PipelineResult where
  success : Bool
  messageId : Nat
  filtered : Bool
  analyzed : Bool
  notificationsCreated : Nat
  notificationsSent : Nat
deriving DecidableEq

structure PipelineStats where
  processed : Nat
  filtered : Nat
  analyzed : Nat
  notificationsCreated : Nat
  notificationsSent : Nat
  errors : Nat
  processingTime : Nat
deriving DecidableEq

def zeroStats : PipelineStats :=
  { processed := 0, filtered := 0, analyzed := 0, notificationsCreated := 0,
    notificationsSent := 0, errors := 0, processingTime := 0 }

structure PipelineState where
  isProcessing : Bool
deriving DecidableEq

/-- The loop body of `processBatch` over one message. -/
def batchStep (procOne : Message → Option PipelineResult) (s : PipelineStats)
    (m : Message) : PipelineStats :=
  match procOne m with
  | none => { s with errors := s.errors + 1 }
  | some r =>
    let s := { s with processed := s.processed + 1 }
    if r.success then
      { s with
        filtered := s.filtered + (if r.filtered then 0 else 1),
        analyzed := s.analyzed + (if r.analyzed then 1 else 0),
        notificationsCreated := s.notificationsCreated + r.notificationsCreated,
        notificationsSent := s.notificationsSent + r.notificationsSent }
    else { s with errors := s.errors + 1 }

/-- `MessageProcessingPipeline.processBatch`: if a batch is in flight the
zero stats value is returned at once and nothing runs; otherwise the
guard is held for the loop and released in the `finally`. -/
def processBatch (procOne : Message → Option PipelineResult) (elapsed : Nat)
    (st : PipelineState) (msgs : List Message) : PipelineStats × PipelineState :=
  if st.isProcessing then (zeroStats, st)
  else
    let stats := msgs.foldl (batchStep procOne) zeroStats
    ({ stats with processingTime := elapsed }, { isProcessing := false })

/-! ## Concrete fixtures used by witnesses and counterexamples -/

/-- A message whose content and stored score make the detector mark it
critical (score 100): the claims about notification creation are
exercised on it. -/
def msgBreakingWar : Message :=
  { message_id := 1, channel_id := 1, content := some "Breaking: война",
    media_type := "text", is_filtered := true, is_processed := true,
    importance_score := 90, category := some "emergency" }

def prefsQuiet : UserPreferences :=
  { notifications := true, digest_time := "09:00", categories := [],
    keywords := [], importance_threshold := 50,
    quiet_hours := some { start := "22:00", stop := "08:00" } }

/-- A recipient with quiet hours 22:00–08:00 (the default window of
`defaultUserPreferences`). -/
def userQuiet : User :=
  { user_id := 2, telegram_id := 200, is_active := true, preferences := prefsQuiet }

def prefsDisabled : UserPreferences :=
  { notifications := false, digest_time := "09:00", categories := [],
    keywords := [], importance_threshold := 50, quiet_hours := none }

def userDisabled : User :=
  { user_id := 3, telegram_id := 300, is_active := true, preferences := prefsDisabled }

/-- A criticality result marked critical with a chosen score. -/
def mkCritResult (s : Nat) : CriticalNewsResult :=
  { is_critical := true, criticality_score := s, confidence := mkRat 1 2,
    factors := getEmptyFactors, reasons := [],
    recommended_action := "priority_notification" }

/-- Delivery environment whose only recipient has notifications
disabled, over a channel that would otherwise deliver successfully. -/
def envDisabled : SenderEnv :=
  { users := [userDisabled], botReady := true, chatAccessible := fun _ => true,
    sendOutcome := fun _ => { success := true, messageId := some 10, error := none } }

def notifDisabled : Notification :=
  { notification_id := 1, user_id := 3, message_id := some 1,
    notification_type := NotificationType.immediate, title := none,
    content := "Важная новость", is_sent := false }

def senderState0 : SenderState := { store := emptyStore, attempts := [] }

/-! ## Claims -/

/-- C2: the eligibility decision is exactly: notifications enabled, AND
score not below the recipient threshold, AND the result critical, AND
not (inside quiet hours with score < 90); wrap-midnight quiet windows
(start > end) test as the disjunction of the two half-ranges; with
quiet hours 22:00–08:00, 23:30 (=1410 min) is inside and 09:00 (=540)
outside; a critical score of 95 inside the window is eligible, a score
of 85 inside the window is not. -/
theorem claim_C2 :
    (∀ (u : User) (a : CriticalNewsResult) (now : Nat),
      (shouldNotifyUser u a now).1 =
        (u.preferences.notifications &&
         !decide (a.criticality_score < u.preferences.importance_threshold) &&
         a.is_critical &&
         !(isInQuietHours u now && decide (a.criticality_score < 90)))) ∧
    (∀ (u : User) (now : Nat) (qh : QuietHours),
      u.preferences.quiet_hours = some qh →
      parseHHMM qh.stop < parseHHMM qh.start →
      isInQuietHours u now =
        (decide (now ≥ parseHHMM qh.start) || decide (now ≤ parseHHMM qh.stop))) ∧
    isInQuietHours userQuiet 1410 = true ∧
    isInQuietHours userQuiet 540 = false ∧
    (shouldNotifyUser userQuiet (mkCritResult 95) 1410).1 = true ∧
    (shouldNotifyUser userQuiet (mkCritResult 85) 1410).1 = false := by
  refine ⟨?_, ?_, by decide, by decide, by decide, by decide⟩
  · intro u a now
    unfold shouldNotifyUser
    rcases hn : u.preferences.notifications with _ | _ <;>
      rcases hc : a.is_critical with _ | _ <;>
      rcases hq : isInQuietHours u now with _ | _ <;>
      by_cases ht : a.criticality_score < u.preferences.importance_threshold <;>
      by_cases h90 : a.criticality_score < 90 <;>
      simp_all <;> split_ifs <;> simp_all
  · intro u now qh hq hlt
    unfold isInQuietHours
    rw [hq]
    simp only [gt_iff_lt]
    rw [if_pos hlt]

/-- C2 witness: the theorem applied at the wrap-midnight fixture
(22:00–08:00) at 23:30, discharging its hypotheses concretely. -/
theorem claim_C2_witness :
    isInQuietHours userQuiet 1410 =
      (decide (1410 ≥ parseHHMM "22:00") || decide (1410 ≤ parseHHMM "08:00")) :=
  claim_C2.2.1 userQuiet 1410 { start := "22:00", stop := "08:00" } rfl (by decide)

/-- C3: the content filter is NOT stateless.  On the same service
instance, the text consisting of three dots with media type `text` is
blocked on the first call (confidence 0.9) but passes an identical
second call, because the global-flag regex of the dots-only low-quality
pattern retains `lastIndex = 3` from the first call. -/
theorem claim_C3 :
    (filterContent "..." (some "text") { liDots := 0, liSeps := 0 }).1.isFiltered = true ∧
    (filterContent "..." (some "text")
      (filterContent "..." (some "text") { liDots := 0, liSeps := 0 }).2).1.isFiltered
      = false := by
  constructor
  · decide
  · decide

/-- C6: when any internal error occurs inside the criticality analysis,
`analyze` returns the safe result — not critical, score 0, confidence 0,
empty factors, recommended action `no_notification` — instead of
propagating, and no recipient is ever notified from that result. -/
theorem claim_C6 :
    ∀ (cfg : CriticalNewsConfig) (ai : Option ImportanceAnalysis) (m : Message)
      (u : User) (now : Nat),
      analyze cfg ai true m =
        { is_critical := false, criticality_score := 0, confidence := 0,
          factors := getEmptyFactors,
          reasons := ["Analysis failed due to error"],
          recommended_action := "no_notification" } ∧
      (shouldNotifyUser u (analyze cfg ai true m) now).1 = false := by
  intro cfg ai m u now
  refine ⟨rfl, ?_⟩
  unfold shouldNotifyUser analyze
  split_ifs <;> simp_all

/-- C9: for text that is not empty after trimming, the filter blocks
exactly when some rule produced a reason and the maximum confidence over
the triggered rules reaches the fixed 0.7 constant (no recipient enters
the decision: `filterContent` takes none). -/
theorem claim_C9 :
    ∀ (content : String) (mt : Option String) (st : LQState),
      jsTrim content.data ≠ [] →
      ((filterContent content mt st).1).isFiltered =
        (decide (0 < ((filterContent content mt st).1).reasons.length) &&
         decide (mkRat 7 10 ≤ ((filterContent content mt st).1).confidence)) := by
  intro content mt st h
  unfold filterContent
  rw [if_neg (by simpa [List.isEmpty_iff] using h)]

/-- C9 witness: the theorem applied to a concrete neutral sentence. -/
theorem claim_C9_witness :
    ((filterContent "Завтра состоится встреча в 15:00" (some "text")
        { liDots := 0, liSeps := 0 }).1).isFiltered =
      (decide (0 < ((filterContent "Завтра состоится встреча в 15:00" (some "text")
        { liDots := 0, liSeps := 0 }).1).reasons.length) &&
       decide (mkRat 7 10 ≤ ((filterContent "Завтра состоится встреча в 15:00" (some "text")
        { liDots := 0, liSeps := 0 }).1).confidence)) :=
  claim_C9 "Завтра состоится встреча в 15:00" (some "text")
    { liDots := 0, liSeps := 0 } (by decide)

/-- C7: on a failed external call the assessor returns the deterministic
fallback: score 30 + 10 for length over 200 + 10 more over 500 + 15 per
matched keyword of the fixed list, clamped to [0,100]; category
`другое` ("other"); sentiment neutral; keywords the top-5 frequent words
longer than 3; spam/ad flags false — with no external call involved
(`ExtOutcome.failure` covers the call never being made or failing). -/
theorem claim_C7 :
    ∀ content : String,
      analyzeContent ExtOutcome.failure content = getFallbackAnalysis content ∧
      (getFallbackAnalysis content).importance.score =
        max 0 (min 100 (30 +
          ((if 200 < jsLen content.data then (10 : Int) else 0) +
           (if 500 < jsLen content.data then (10 : Int) else 0)) +
          ((fallbackKeywords.filter
              (fun k => hasTok (lowerL k.data) (lowerL content.data))).length : Int) * 15)) ∧
      (getFallbackAnalysis content).category.category = "другое" ∧
      (getFallbackAnalysis content).sentiment = "neutral" ∧
      (getFallbackAnalysis content).keywords = extractSimpleKeywords content ∧
      (getFallbackAnalysis content).isSpam = false ∧
      (getFallbackAnalysis content).isAd = false ∧
      calculateFallbackImportance "Президент подписал указ" = 45 ∧
      extractSimpleKeywords "Президент подписал указ" =
        ["президент", "подписал", "указ"] := by
  intro content
  exact ⟨rfl, rfl, rfl, rfl, rfl, rfl, rfl, by decide, by decide⟩

/-- C8: under the default weights the final score is the half-up-rounded
weighted sum content·0.25 + assessment·0.5 + source·0.15 + time·0.1
clamped to [0,100]; constructing the scorer with ANY weight set succeeds
(validation only reports a flag); and the tiers of `classifyImportance`
sit exactly at 85/70/50/30. -/
theorem claim_C8 :
    (∀ f : ScoreFactors,
      (calculateScoreFromFactors defaultWeights f).finalScore =
        max 0 (min 100 (jsRound
          (calculateContentScore f * mkRat 1 4 +
           normalizeAIScore f.aiImportanceScore * mkRat 1 2 +
           calculateSourceScore f * mkRat 3 20 +
           calculateTimelinessScore f * mkRat 1 10))) ∧
      (calculateScoreFromFactors defaultWeights f).classification =
        classifyImportance (jsRound
          (calculateContentScore f * mkRat 1 4 +
           normalizeAIScore f.aiImportanceScore * mkRat 1 2 +
           calculateSourceScore f * mkRat 3 20 +
           calculateTimelinessScore f * mkRat 1 10))) ∧
    (∀ w : ScoringWeights, (newsScoreServiceInit w).1 = w) ∧
    validateWeights defaultWeights = false ∧
    validateWeights
      { aiWeight := 1, contentWeight := 1, sourceWeight := 0, timelinessWeight := 0 }
      = true ∧
    classifyImportance 85 = "critical" ∧ classifyImportance 84 = "high" ∧
    classifyImportance 70 = "high" ∧ classifyImportance 69 = "medium" ∧
    classifyImportance 50 = "medium" ∧ classifyImportance 49 = "low" ∧
    classifyImportance 30 = "low" ∧ classifyImportance 29 = "minimal" := by
  refine ⟨fun f => ⟨rfl, rfl⟩, fun w => rfl, by decide, by decide,
    by decide, by decide, by decide, by decide, by decide, by decide, by decide, by decide⟩

/-- C4: a response that is malformed only in individual fields is
degraded field by field — score clamped to [0,100], confidence to [0,1],
unknown category replaced by `другое` ("other"), invalid sentiment by
`neutral`, non-array keyword fields by `[]` — while every well-formed
field (category in the taxonomy, valid sentiment, in-range score,
present keyword/factor arrays, the spam/ad flags and summary) is kept,
and the message's processing continues with that result instead of
aborting. -/
theorem claim_C4 :
    ∀ (raw : RawResponse) (imp : RawImportance) (cat : RawCategory) (content : String),
      raw.importance = some imp → raw.category = some cat →
      ∃ r : AIAnalysisResult,
        validateAndTransformResponse raw = Except.ok r ∧
        analyzeContent (ExtOutcome.success raw) content = r ∧
        0 ≤ r.importance.score ∧ r.importance.score ≤ 100 ∧
        0 ≤ r.category.confidence ∧ r.category.confidence ≤ 1 ∧
        validSentiments.contains r.sentiment = true ∧
        (aiCategories.contains cat.category = true → r.category.category = cat.category) ∧
        (aiCategories.contains cat.category = false → r.category.category = "другое") ∧
        (∀ s, raw.sentiment = some s → validSentiments.contains s = true →
          r.sentiment = s) ∧
        (∀ s, raw.sentiment = some s → validSentiments.contains s = false →
          r.sentiment = "neutral") ∧
        (∀ v : Int, imp.score = some v → 0 ≤ v → v ≤ 100 → r.importance.score = v) ∧
        (imp.score = none → r.importance.score = 0) ∧
        (raw.keywords = none → r.keywords = []) ∧
        (∀ ks, raw.keywords = some ks → r.keywords = ks) ∧
        (∀ fs, imp.factors = some fs → r.importance.factors = fs) ∧
        r.isSpam = raw.isSpam ∧ r.isAd = raw.isAd ∧ r.summary = raw.summary := by
  intro raw imp cat content h1 h2
  have hval : validateAndTransformResponse raw = Except.ok
      { importance :=
          { score := max 0 (min 100 (jsOrZeroInt imp.score)),
            reasoning := (imp.reasoning).getD "Автоматическая оценка",
            factors := (imp.factors).getD [] },
        category :=
          { category := if aiCategories.contains cat.category then cat.category else "другое",
            confidence := max 0 (min 1 (jsOrHalf cat.confidence)),
            keywords := (cat.keywords).getD [] },
        sentiment :=
          if validSentiments.contains ((raw.sentiment).getD "") then (raw.sentiment).getD ""
          else "neutral",
        keywords := (raw.keywords).getD [],
        isSpam := raw.isSpam,
        isAd := raw.isAd,
        summary := raw.summary } := by
    unfold validateAndTransformResponse
    rw [h1, h2]
  refine ⟨_, hval, ?_, ?_, ?_, ?_, ?_, ?_, ?_, ?_, ?_, ?_, ?_, ?_, ?_, ?_, ?_, rfl, rfl, rfl⟩
  · simp only [analyzeContent, hval]
  · exact le_max_left 0 _
  · exact max_le (by norm_num) (min_le_left _ _)
  · exact le_max_left 0 _
  · exact max_le (by norm_num) (min_le_left _ _)
  · by_cases hs : validSentiments.contains ((raw.sentiment).getD "") = true
    · simp only [if_pos hs]
      exact hs
    · simp only [Bool.not_eq_true] at hs
      simp only [hs, Bool.false_eq_true, if_false]
      decide
  · intro hc
    simp only []
    rw [if_pos hc]
  · intro hc
    simp only []
    rw [if_neg (fun h => by rw [hc] at h; exact absurd h (by decide))]
  · intro s hs hv
    simp only [hs, Option.getD_some]
    rw [if_pos hv]
  · intro s hs hv
    simp only [hs, Option.getD_some]
    rw [if_neg (fun h => by rw [hv] at h; exact absurd h (by decide))]
  · intro v hv h0 h100
    simp only [jsOrZeroInt, hv, Option.getD_some]
    omega
  · intro hv; simp [jsOrZeroInt, hv]
  · intro hk; simp [hk]
  · intro ks hk; simp [hk]
  · intro fs hf; simp [hf]

/-- C4 witness: a concrete response with score 250, an unknown category,
an out-of-range confidence, an invalid sentiment and a missing keywords
array is degraded in exactly those fields. -/
theorem claim_C4_witness :
    ∃ r : AIAnalysisResult,
      validateAndTransformResponse
        { importance := some { score := some 250, reasoning := none, factors := none },
          category := some { category := "чепуха", confidence := some 5, keywords := none },
          sentiment := some "angry", keywords := none, isSpam := true, isAd := false,
          summary := some "итог" } = Except.ok r ∧
      analyzeContent (ExtOutcome.success
        { importance := some { score := some 250, reasoning := none, factors := none },
          category := some { category := "чепуха", confidence := some 5, keywords := none },
          sentiment := some "angry", keywords := none, isSpam := true, isAd := false,
          summary := some "итог" }) "текст" = r ∧
      0 ≤ r.importance.score ∧ r.importance.score ≤ 100 ∧
      0 ≤ r.category.confidence ∧ r.category.confidence ≤ 1 ∧
      validSentiments.contains r.sentiment = true ∧
      (aiCategories.contains "чепуха" = true → r.category.category = "чепуха") ∧
      (aiCategories.contains "чепуха" = false → r.category.category = "другое") ∧
      (∀ s, (some "angry" : Option String) = some s → validSentiments.contains s = true →
        r.sentiment = s) ∧
      (∀ s, (some "angry" : Option String) = some s → validSentiments.contains s = false →
        r.sentiment = "neutral") ∧
      (∀ v : Int, (some (250 : Int) : Option Int) = some v → 0 ≤ v → v ≤ 100 →
        r.importance.score = v) ∧
      ((some (250 : Int) : Option Int) = none → r.importance.score = 0) ∧
      ((none : Option (List String)) = none → r.keywords = []) ∧
      (∀ ks, (none : Option (List String)) = some ks → r.keywords = ks) ∧
      (∀ fs, (none : Option (List String)) = some fs → r.importance.factors = fs) ∧
      r.isSpam = true ∧ r.isAd = false ∧ r.summary = some "итог" :=
  claim_C4
    { importance := some { score := some 250, reasoning := none, factors := none },
      category := some { category := "чепуха", confidence := some 5, keywords := none },
      sentiment := some "angry", keywords := none, isSpam := true, isAd := false,
      summary := some "итог" }
    { score := some 250, reasoning := none, factors := none }
    { category := "чепуха", confidence := some 5, keywords := none }
    "текст" rfl rfl

/-- Each loop iteration of `processBatch` bumps `processed` (a returned
result) or `errors` (a throw) at least once. -/
theorem batchStep_count (p : Message → Option PipelineResult) (s : PipelineStats)
    (m : Message) :
    s.processed + s.errors + 1 ≤ (batchStep p s m).processed + (batchStep p s m).errors := by
  unfold batchStep
  cases p m with
  | none => simp; omega
  | some r =>
    by_cases hs : r.success = true
    · simp [hs]; omega
    · simp only [Bool.not_eq_true] at hs
      simp [hs]
      omega

theorem batchFold_count (p : Message → Option PipelineResult) :
    ∀ (msgs : List Message) (s : PipelineStats),
      s.processed + s.errors + msgs.length ≤
        (msgs.foldl (batchStep p) s).processed + (msgs.foldl (batchStep p) s).errors := by
  intro msgs
  induction msgs with
  | nil => intro s; simp
  | cons m ms ih =>
    intro s
    simp only [List.foldl_cons, List.length_cons]
    calc s.processed + s.errors + (ms.length + 1)
        = (s.processed + s.errors + 1) + ms.length := by omega
      _ ≤ ((batchStep p s m).processed + (batchStep p s m).errors) + ms.length := by
          have := batchStep_count p s m; omega
      _ ≤ _ := by
          have := ih (batchStep p s m); omega

/-- C5: the batch entry point is single-flight — with a batch already in
flight, any call (empty or not) immediately returns the all-zero stats
value and leaves all state untouched; started from idle, the guard is
released at the end and every message contributes to `processed` or
`errors`, so a non-empty batch yields non-trivial stats (of two
concurrent calls, the one that sees the guard set gets the zero result). -/
theorem claim_C5 :
    ∀ (procOne : Message → Option PipelineResult) (elapsed : Nat)
      (st : PipelineState) (msgs : List Message),
      (st.isProcessing = true →
        processBatch procOne elapsed st msgs = (zeroStats, st)) ∧
      (st.isProcessing = false →
        ((processBatch procOne elapsed st msgs).2).isProcessing = false ∧
        msgs.length ≤ (processBatch procOne elapsed st msgs).1.processed +
          (processBatch procOne elapsed st msgs).1.errors) := by
  intro procOne elapsed st msgs
  constructor
  · intro h
    simp [processBatch, h]
  · intro h
    constructor
    · simp [processBatch, h]
    · simp only [processBatch, h, Bool.false_eq_true, if_false]
      have := batchFold_count procOne msgs zeroStats
      simpa [zeroStats] using this

/-- C5 witness: a guarded call on a non-empty list returns the zero
stats unchanged-state pair; an idle call releases the guard and counts
its one message. -/
theorem claim_C5_witness :
    (processBatch (fun _ => none) 7 { isProcessing := true } [msgBreakingWar]
        = (zeroStats, { isProcessing := true })) ∧
    (((processBatch (fun _ => none) 7 { isProcessing := false } [msgBreakingWar]).2).isProcessing
        = false ∧
      [msgBreakingWar].length ≤
        (processBatch (fun _ => none) 7 { isProcessing := false } [msgBreakingWar]).1.processed +
        (processBatch (fun _ => none) 7 { isProcessing := false } [msgBreakingWar]).1.errors) :=
  ⟨(claim_C5 (fun _ => none) 7 { isProcessing := true } [msgBreakingWar]).1 rfl,
   (claim_C5 (fun _ => none) 7 { isProcessing := false } [msgBreakingWar]).2 rfl⟩

/-- C1: the notification-creation stage never creates any record, and
the claimed existence check does not exist.  For every critical message
`processMessageForNotifications` throws at
`this.userService.getAllUsers()` (the method is absent from the
concrete `UserService`), its `catch` returns `{success: false}` and the
store is untouched, so zero `immediate` records are ever created — the
repository's own NotificationService tests reach the creation loop only
by mocking `getAllUsers`, and that loop contains no existence check
(`NotificationDAO.create` is a bare `INSERT`).  Concretely, processing
the critical fixture message twice yields failed results and 0 records
for its (recipient, message) pair. -/
theorem claim_C1 :
    (∀ (cfg : CriticalNewsConfig) (ai : Option ImportanceAnalysis) (err : Bool)
       (m : Message) (now : Nat) (st : NotifStore),
      processMessageForNotifications cfg ai err m now st =
        (if (analyze cfg ai err m).is_critical then
          ({ success := false, data := none,
             error := some "Failed to process message for notifications" }, st)
         else ({ success := true, data := some [], error := none }, st))) ∧
    (analyze defaultDetectorConfig none false msgBreakingWar).is_critical = true ∧
    (processMessageForNotifications defaultDetectorConfig none false msgBreakingWar 600
        emptyStore).1.success = false ∧
    immediateCount (processMessageForNotifications defaultDetectorConfig none false
        msgBreakingWar 600
        (processMessageForNotifications defaultDetectorConfig none false
          msgBreakingWar 600 emptyStore).2).2 1 1 = 0 := by
  refine ⟨?_, by decide, by decide, by decide⟩
  intro cfg ai err m now st
  unfold processMessageForNotifications
  by_cases hc : (analyze cfg ai err m).is_critical
  · simp [hc, userServiceGetAllUsers]
  · simp only [Bool.not_eq_true] at hc
    simp [hc]

/-- Every single delivery fails: a found recipient — whatever the
preferences — hits the broken `success` guard and gets the
`User not found` failure, a missing one the wrapped `TypeError`; the
state (store and attempt log) is never touched. -/
theorem sendNotification_fail (env : SenderEnv) (st : SenderState) (n : Notification) :
    ∃ e, sendNotification env st n = (createFailureResult n "telegram" e, st) := by
  unfold sendNotification
  cases env.users.find? (fun u => u.user_id = n.user_id) with
  | none => exact ⟨nullReadSuccessMsg, rfl⟩
  | some u => exact ⟨"User not found", by simp [undefinedTruthy]⟩

theorem bulkSendStep_fail (env : SenderEnv) (uid : Nat)
    (acc : SenderState × List NotificationDeliveryResult × List String)
    (n : Notification) :
    ∃ e, bulkSendStep env uid acc n =
      (acc.1, acc.2.1 ++ [createFailureResult n "telegram" e],
       acc.2.2 ++ ["User " ++ toString uid ++ ": " ++ e]) := by
  obtain ⟨e, he⟩ := sendNotification_fail env acc.1 n
  refine ⟨e, ?_⟩
  unfold bulkSendStep
  rw [he]
  simp [createFailureResult]

theorem sendUserGroup_fail (env : SenderEnv) (uid : Nat) :
    ∀ (ns : List Notification)
      (acc : SenderState × List NotificationDeliveryResult × List String),
      (sendUserGroup env uid acc ns).1 = acc.1 ∧
      (sendUserGroup env uid acc ns).2.1.length = acc.2.1.length + ns.length ∧
      (sendUserGroup env uid acc ns).2.1.filter (fun r => r.success) =
        acc.2.1.filter (fun r => r.success) := by
  intro ns
  induction ns with
  | nil => intro acc; simp [sendUserGroup]
  | cons n ns ih =>
    intro acc
    obtain ⟨e, he⟩ := bulkSendStep_fail env uid acc n
    unfold sendUserGroup
    simp only [List.foldl_cons]
    rw [he]
    have h3 := ih (acc.1,
      acc.2.1 ++ [createFailureResult n "telegram" e],
      acc.2.2 ++ ["User " ++ toString uid ++ ": " ++ e])
    unfold sendUserGroup at h3
    obtain ⟨ha, hb, hc⟩ := h3
    refine ⟨ha, ?_, ?_⟩
    · rw [hb]
      simp
      omega
    · rw [hc, List.filter_append]
      simp [createFailureResult]

theorem bulkFold_fail (env : SenderEnv) :
    ∀ (gs : List (Nat × List Notification))
      (acc : SenderState × List NotificationDeliveryResult × List String),
      (gs.foldl (fun acc g => sendUserGroup env g.1 acc g.2) acc).1 = acc.1 ∧
      ((gs.foldl (fun acc g => sendUserGroup env g.1 acc g.2) acc).2.1).length =
        acc.2.1.length + groupsSize gs ∧
      ((gs.foldl (fun acc g => sendUserGroup env g.1 acc g.2) acc).2.1).filter
          (fun r => r.success) = acc.2.1.filter (fun r => r.success) := by
  intro gs
  induction gs with
  | nil => intro acc; simp [groupsSize]
  | cons g gs ih =>
    intro acc
    simp only [List.foldl_cons]
    obtain ⟨h1, h2, h3⟩ := sendUserGroup_fail env g.1 g.2 acc
    obtain ⟨ih1, ih2, ih3⟩ := ih (sendUserGroup env g.1 acc g.2)
    refine ⟨ih1.trans h1, ?_, ih3.trans h3⟩
    rw [ih2, h2]
    simp [groupsSize]
    omega

theorem groupAdd_size :
    ∀ (gs : List (Nat × List Notification)) (n : Notification),
      groupsSize (groupAdd n gs) = groupsSize gs + 1 := by
  intro gs
  induction gs with
  | nil => intro n; simp [groupAdd, groupsSize]
  | cons g gs ih =>
    intro n
    unfold groupAdd
    by_cases hg : g.1 = n.user_id
    · simp [hg, groupsSize]
      omega
    · cases g with
      | mk uid ms =>
        simp only [] at hg
        have hih := ih n
        simp [hg, groupsSize] at hih ⊢
        omega

theorem groups_size :
    ∀ (ns : List Notification) (acc : List (Nat × List Notification)),
      groupsSize (ns.foldl (fun a n => groupAdd n a) acc) = groupsSize acc + ns.length := by
  intro ns
  induction ns with
  | nil => intro acc; simp
  | cons n ns ih =>
    intro acc
    simp only [List.foldl_cons, List.length_cons]
    rw [ih (groupAdd n acc), groupAdd_size]
    omega

/-- C10: the notifications-disabled branch of `sendNotification` is
dead code.  The concrete `UserService.getUserById` resolves to a bare
`User | null`, so the guard `!userResult.success || !userResult.data`
fires for EVERY found recipient: a recipient that exists with
notifications disabled gets a failure result whose error is
`User not found` — not `Notifications disabled for user` — with no
delivery attempt and nothing marked sent, and in a bulk delivery every
record fails, stays unsent and counts toward `failed` with the state
untouched.  (The repository's own NotificationSender tests assert the
claimed error only under a mocked `{success, data}`-returning
`getUserById`.) -/
theorem claim_C10 :
    (∀ (env : SenderEnv) (st : SenderState) (n : Notification) (u : User),
      env.users.find? (fun v => v.user_id = n.user_id) = some u →
      sendNotification env st n =
        (createFailureResult n "telegram" "User not found", st)) ∧
    (∀ (env : SenderEnv) (st : SenderState) (ns : List Notification),
      (sendBulkNotifications env st ns).1.successful = 0 ∧
      (sendBulkNotifications env st ns).1.results.length = ns.length ∧
      (sendBulkNotifications env st ns).1.failed = ns.length ∧
      (sendBulkNotifications env st ns).2 = st) := by
  constructor
  · intro env st n u hf
    unfold sendNotification
    rw [hf]
    simp [undefinedTruthy]
  · intro env st ns
    obtain ⟨h1, h2, h3⟩ := bulkFold_fail env (groupNotificationsByUser ns) (st, [], [])
    have hsize : groupsSize (groupNotificationsByUser ns) = ns.length := by
      unfold groupNotificationsByUser
      rw [groups_size ns []]
      simp [groupsSize]
    refine ⟨?_, ?_, ?_, ?_⟩
    · simp only [sendBulkNotifications]
      rw [h3]
      rfl
    · simp only [sendBulkNotifications]
      rw [h2, hsize]
      simp
    · simp only [sendBulkNotifications]
      rw [h2, hsize, h3]
      simp
    · simp only [sendBulkNotifications]
      exact h1

/-- C10 witness: the theorem applied at the failing input — the fixture
recipient exists and has notifications disabled, yet the single send
fails with `User not found` instead of the claimed
`Notifications disabled for user`. -/
theorem claim_C10_witness :
    sendNotification envDisabled senderState0 notifDisabled =
      (createFailureResult notifDisabled "telegram" "User not found", senderState0) :=
  claim_C10.1 envDisabled senderState0 notifDisabled userDisabled rfl
